import Mathlib

/-!
Shallow embedding of `src-tauri/src/main.rs` from the
`pupcidslittletiktokhelper` repository: a Tauri desktop shell that spawns a
Node.js background service, exposes a system-tray menu
(show / hide / auto_start / update / quit), intercepts the main window's
close request to hide instead of destroy, and kills the child process in the
runtime's `ExitRequested` handler.

The event loop is single-threaded, so the `Mutex<Option<Child>>` around the
child handle is modelled as direct ownership of an `Option Child` (the
`lock()` call in the source is taken to succeed, matching the single-threaded
delivery of run events). Side effects performed by the handlers (window calls,
process kills, log lines, `std::process::exit`, `prevent_close`,
`prevent_exit`) are recorded as an explicit effect trace.
-/

namespace TikTokHelper

/-- A spawned OS child process handle (`std::process::Child`), identified by
its pid. -/
structure Child where
  pid : Nat
  deriving DecidableEq, Repr

/-- Observable side effects that the Rust code can perform. The vocabulary
contains every operation the handlers invoke, plus `pollChildLiveness`, which
no code path performs (its absence from every trace is provable). -/
inductive Effect where
  /-- `Command::new("node").arg("server.js").current_dir(".").spawn()` :
  an OS child-process creation attempt. -/
  | trySpawn (cmd : String) (arg : String) (cwd : String)
  /-- `std::thread::sleep(Duration::from_secs(n))`. -/
  | sleepSecs (n : Nat)
  /-- `SystemTray::new().with_menu(create_tray_menu())`. -/
  | createTray
  /-- `window.show()` on the named window. -/
  | showWindow (name : String)
  /-- `window.set_focus()` on the named window. -/
  | setFocus (name : String)
  /-- `window.hide()` on the named window. -/
  | hideWindow (name : String)
  /-- `println!` line on stdout. -/
  | printLine (s : String)
  /-- `eprintln!` line on stderr. -/
  | printErrLine (s : String)
  /-- `child.kill()` : a termination attempt against the child process. -/
  | killChild (pid : Nat)
  /-- `std::process::exit(code)` : immediate host-process termination. -/
  | processExit (code : Nat)
  /-- `api.prevent_close()` in the window-event handler. -/
  | preventClose
  /-- `api.prevent_exit()` in the run-event handler. -/
  | preventExit
  /-- `tauri::async_runtime::spawn(...)` : start an asynchronous task. -/
  | spawnAsyncTask
  /-- entering the toolkit event loop (`Builder::run`). -/
  | enterEventLoop
  /-- a liveness/health probe of the child process; no code path emits it. -/
  | pollChildLiveness
  deriving DecidableEq, Repr

/-- State of the single main window (name `"main"`). `alive` is false only if
the toolkit has destroyed the window. -/
structure WindowState where
  alive : Bool
  visible : Bool
  focused : Bool
  deriving DecidableEq, Repr

/-- `struct NodeServer { process: Mutex<Option<Child>> }` : the managed state
holding the child handle. -/
structure NodeServer where
  process : Option Child
  deriving DecidableEq, Repr

/-- The application's run-time state: the managed `NodeServer`, the main
window, and whether the host process has already terminated. -/
structure AppState where
  nodeServer : NodeServer
  window : WindowState
  exited : Bool
  deriving DecidableEq, Repr

/-- The take-and-kill operation from the `RunEvent::ExitRequested` handler:
`if let Some(mut child) = process.take() { child.kill().ok(); }`.
Returns the new contents of the handle slot and the effects performed. -/
def terminate (p : Option Child) : Option Child × List Effect :=
  match p with
  | some child => (none, [.killChild child.pid])
  | none => (none, [])

/-- Tray events delivered by the toolkit (`SystemTrayEvent`). -/
inductive SystemTrayEvent where
  | leftClick
  | menuItemClick (id : String)
  | otherTrayEvent
  deriving DecidableEq, Repr

/-- Window events relevant to the handler (`WindowEvent::CloseRequested` and
everything else). -/
inductive WindowEventKind where
  | closeRequested
  | otherWindowEvent
  deriving DecidableEq, Repr

/-- Run events delivered to the `Builder::run` callback. -/
inductive RunEventKind where
  | exitRequested
  | otherRunEvent
  deriving DecidableEq, Repr

/-- The `on_system_tray_event` closure (main.rs lines 103-142). Each arm of
the Rust `match id.as_str()` becomes one branch of the decision chain, in
source order; the wildcard arm `_ => {}` is the final branch. -/
def onSystemTrayEvent (s : AppState) (e : SystemTrayEvent) :
    AppState × List Effect :=
  match e with
  | .leftClick =>
      ({ s with window := { s.window with visible := true, focused := true } },
       [.printLine "System tray left click", .showWindow "main",
        .setFocus "main"])
  | .menuItemClick id =>
      if id = "show" then
        ({ s with
            window := { s.window with visible := true, focused := true } },
         [.showWindow "main", .setFocus "main"])
      else if id = "hide" then
        ({ s with window := { s.window with visible := false } },
         [.hideWindow "main"])
      else if id = "auto_start" then
        (s, [.printLine "Auto-start toggled"])
      else if id = "update" then
        (s, [.spawnAsyncTask])
      else if id = "quit" then
        ({ s with exited := true }, [.processExit 0])
      else
        (s, [])
  | .otherTrayEvent => (s, [])

/-- The `on_window_event` closure (main.rs lines 143-149): on
`CloseRequested`, hide the window and call `api.prevent_close()`;
every other window event is ignored. -/
def onWindowEvent (s : AppState) (e : WindowEventKind) :
    AppState × List Effect :=
  match e with
  | .closeRequested =>
      ({ s with window := { s.window with visible := false } },
       [.hideWindow "main", .preventClose])
  | .otherWindowEvent => (s, [])

/-- The `Builder::run` callback (main.rs lines 157-168): on `ExitRequested`,
lock the managed `NodeServer`, take-and-kill the child handle, then call
`api.prevent_exit()`; every other run event is ignored. -/
def onRunEvent (s : AppState) (e : RunEventKind) : AppState × List Effect :=
  match e with
  | .exitRequested =>
      let (p, effs) := terminate s.nodeServer.process
      ({ s with nodeServer := { process := p } }, effs ++ [.preventExit])
  | .otherRunEvent => (s, [])

/-- Toolkit semantics of a close request (the windowing toolkit is an
external collaborator): the registered handler runs, and the window is
destroyed by default unless the handler called `prevent_close`. -/
def applyCloseRequest (s : AppState) : AppState × List Effect :=
  let (s1, effs) := onWindowEvent s .closeRequested
  if effs.contains .preventClose then (s1, effs)
  else ({ s1 with window := { s1.window with alive := false } }, effs)

/-- Any event the running application can receive. -/
inductive Event where
  | tray (e : SystemTrayEvent)
  | window (e : WindowEventKind)
  | run (e : RunEventKind)
  deriving DecidableEq, Repr

/-- Dispatch one event to its handler. A state whose host process already
terminated (`std::process::exit` ran) receives no further events. -/
def step (s : AppState) (e : Event) : AppState × List Effect :=
  if s.exited then (s, [])
  else
    match e with
    | .tray te => onSystemTrayEvent s te
    | .window we => onWindowEvent s we
    | .run re => onRunEvent s re

/-- Run a whole sequence of delivered events, accumulating the effect trace. -/
def runEvents (s : AppState) : List Event → AppState × List Effect
  | [] => (s, [])
  | e :: rest =>
      ((runEvents (step s e).1 rest).1,
       (step s e).2 ++ (runEvents (step s e).1 rest).2)

/-- Result of the updater capability's `updater.check().await`
(external transport): either a response carrying whether an update is
available and the latest version string, or a transport failure. -/
inductive UpdaterResult where
  | response (updateAvailable : Bool) (latestVersion : String)
  | failure (err : String)
  deriving DecidableEq, Repr

/-- The `check_for_updates` Tauri command (main.rs lines 60-79), as a function
of the transport's result: logs and returns `Ok(())` on any successful
query, logs to stderr and returns `Err("Update check failed: ...")` on a
transport failure. It never aborts: it is a total function into a result. -/
def check_for_updates (r : UpdaterResult) : List Effect × Except String Unit :=
  match r with
  | .response available latest =>
      if available then
        ([.printLine ("Update available: " ++ latest)], .ok ())
      else
        ([.printLine "App is up to date"], .ok ())
  | .failure e =>
      ([.printErrLine ("Failed to check for updates: " ++ e)],
       .error ("Update check failed: " ++ e))

/-- Body of the asynchronous task spawned by the "update" tray arm
(main.rs lines 130-133): `check_for_updates(app_handle).await.ok();` —
`Result::ok()` converts the result to an `Option` and the trailing
semicolon discards it, so the task's returned value is unit. -/
def updateTask (r : UpdaterResult) : List Effect × Unit :=
  let res := check_for_updates r
  let _discarded : Option Unit := res.2.toOption
  (res.1, ())

/-- The fixed spawn request issued by `start_node_server`. -/
structure SpawnSpec where
  cmd : String
  arg : String
  cwd : String
  deriving DecidableEq, Repr

/-- `start_node_server` (main.rs lines 19-33): asks the OS (an oracle from
spawn requests to results) to spawn `node server.js` in the current
directory; the `?` operator propagates a spawn error. Both `cfg` branches
of the source issue the identical command. -/
def start_node_server (os : SpawnSpec → Except String Child) :
    Except String Child :=
  os { cmd := "node", arg := "server.js", cwd := "." }

/-- Modelled from the spec: the toolkit configuration (`tauri.conf.json`,
not under `src/`) makes the main window visible when the application is
built and its event loop starts; spec section 4.5 lists the startup order
"spawn the service, wait the grace period, build the tray, show the main
window, enter the event loop". -/
def buildAndRunTrace : List Effect := [.showWindow "main", .enterEventLoop]

/-- Outcome of running `main` up to the point the event loop begins:
the effect trace, the fatal diagnostic if `.expect` panicked, and the
application state handed to the event loop if startup succeeded. -/
structure StartupResult where
  trace : List Effect
  panicMsg : Option String
  state : Option AppState
  deriving DecidableEq, Repr

/-- The state managed by the builder right after a successful startup:
the child handle stored in the `NodeServer`, the main window alive and
visible, host process running. -/
def initialState (child : Child) : AppState :=
  { nodeServer := { process := some child },
    window := { alive := true, visible := true, focused := false },
    exited := false }

/-- `main` (main.rs lines 87-100 and the builder chain), as a function of the
OS spawn oracle: spawn the Node.js server, and on failure panic via
`.expect("Failed to start Node.js server")` before anything else runs; on
success sleep 2 seconds, create the system tray, then build and run the
application (window shown, event loop entered). -/
def mainStartup (os : SpawnSpec → Except String Child) : StartupResult :=
  match start_node_server os with
  | .error e =>
      { trace := [.trySpawn "node" "server.js" "."],
        panicMsg := some ("Failed to start Node.js server: " ++ e),
        state := none }
  | .ok child =>
      { trace := [.trySpawn "node" "server.js" ".", .sleepSecs 2,
                  .createTray] ++ buildAndRunTrace,
        panicMsg := none,
        state := some (initialState child) }

/-- Whether an effect is an OS child-process creation attempt. -/
def isSpawnEffect : Effect → Bool
  | .trySpawn _ _ _ => true
  | _ => false

/-- Whether an effect is a termination attempt against the child process. -/
def isKillEffect : Effect → Bool
  | .killChild _ => true
  | _ => false

/-- Whether an effect is a blocking sleep. -/
def isSleepEffect : Effect → Bool
  | .sleepSecs _ => true
  | _ => false

/-- Number of OS child-process creation attempts in a trace. -/
def spawnCount (effs : List Effect) : Nat := effs.countP fun e => isSpawnEffect e

/-- Number of termination attempts against the child in a trace. -/
def killCount (effs : List Effect) : Nat := effs.countP fun e => isKillEffect e

/-- Whether a trace lets an intercepted exit request complete: in the
toolkit's contract the application exits afterwards unless the handler
called `prevent_exit`. -/
def allowsExit (effs : List Effect) : Bool := !effs.contains .preventExit

/-! Helper lemmas shared by several claims. -/

/-- The tray handler never emits an OS child-process creation attempt. -/
theorem onSystemTrayEvent_spawnCount_zero (s : AppState)
    (te : SystemTrayEvent) : spawnCount (onSystemTrayEvent s te).2 = 0 := by
  rcases te with _ | id | _
  · rfl
  · simp only [onSystemTrayEvent]
    split_ifs <;> rfl
  · rfl

/-- The run-event handler never emits an OS child-process creation attempt. -/
theorem onRunEvent_spawnCount_zero (s : AppState) (re : RunEventKind) :
    spawnCount (onRunEvent s re).2 = 0 := by
  cases re
  · cases hp : s.nodeServer.process <;>
      simp [onRunEvent, terminate, hp, spawnCount, isSpawnEffect]
  · rfl

/-- No event handler ever emits an OS child-process creation attempt. -/
theorem step_spawnCount_zero (s : AppState) (e : Event) :
    spawnCount (step s e).2 = 0 := by
  unfold step
  split
  · rfl
  rcases e with te | we | re
  · exact onSystemTrayEvent_spawnCount_zero s te
  · cases we <;> rfl
  · exact onRunEvent_spawnCount_zero s re

/-- Processing any sequence of events emits no child-process spawn. -/
theorem runEvents_spawnCount_zero (s : AppState) (es : List Event) :
    spawnCount (runEvents s es).2 = 0 := by
  induction es generalizing s with
  | nil => rfl
  | cons e rest ih =>
      show spawnCount ((step s e).2 ++ _) = 0
      rw [spawnCount, List.countP_append]
      have h1 := step_spawnCount_zero s e
      have h2 := ih (step s e).1
      rw [spawnCount] at h1 h2
      omega

/-! Claim theorems. -/

/-- C1 (code bug evidence): clicking the tray "quit" item while the child
handle is live calls `std::process::exit(0)` immediately: the emitted trace
is exactly one host-process exit, with zero termination attempts against the
Node.js child, and the child handle is still stored (leaked) when the host
process dies. This contradicts the claim that Quit results in exactly one
kill of the child before the application exits. -/
theorem quit_tray_click_makes_no_kill_attempt :
    step (initialState ⟨314⟩) (.tray (.menuItemClick "quit")) =
      ({ initialState ⟨314⟩ with exited := true }, [Effect.processExit 0]) ∧
    killCount (step (initialState ⟨314⟩)
      (.tray (.menuItemClick "quit"))).2 = 0 ∧
    (step (initialState ⟨314⟩)
      (.tray (.menuItemClick "quit"))).1.nodeServer.process = some ⟨314⟩ :=
  ⟨rfl, rfl, rfl⟩

/-- C2 (counterexample): at a concrete state holding a live child, the
`ExitRequested` handler does not allow the exit to complete: it calls
`api.prevent_exit()`, so the process is not afterwards permitted to
terminate through this handler. -/
theorem exit_requested_not_allowed_to_complete :
    allowsExit (onRunEvent (initialState ⟨314⟩) .exitRequested).2 = false :=
  rfl

/-- C2 (amended): for every intercepted exit request, the cleanup routine
takes the stored child-process handle, calls kill on it exactly once, and
then prevents the exit (calls `prevent_exit`), so the exit does not complete
through this handler. -/
theorem exit_requested_kills_once_then_prevents_exit (s : AppState)
    (c : Child) (h : s.nodeServer.process = some c) :
    onRunEvent s .exitRequested =
      ({ s with nodeServer := { process := none } },
       [Effect.killChild c.pid, Effect.preventExit]) ∧
    killCount (onRunEvent s .exitRequested).2 = 1 ∧
    allowsExit (onRunEvent s .exitRequested).2 = false := by
  simp [onRunEvent, terminate, h, killCount, allowsExit, isKillEffect,
    List.countP, List.countP.go]

/-- C2 witness: the amended statement evaluated at a concrete state. -/
theorem exit_requested_kills_once_then_prevents_exit_witness :
    (initialState ⟨7⟩).nodeServer.process = some ⟨7⟩ ∧
    (onRunEvent (initialState ⟨7⟩) .exitRequested =
      ({ initialState ⟨7⟩ with nodeServer := { process := none } },
       [Effect.killChild 7, Effect.preventExit]) ∧
    killCount (onRunEvent (initialState ⟨7⟩) .exitRequested).2 = 1 ∧
    allowsExit (onRunEvent (initialState ⟨7⟩) .exitRequested).2 = false) :=
  ⟨rfl, exit_requested_kills_once_then_prevents_exit (initialState ⟨7⟩) ⟨7⟩ rfl⟩

/-- C3: every close request delivered to the main window hides it and cancels
the default destroy behavior: the window stays alive, the child process
handle is untouched and no kill is attempted, and a subsequent tray "show"
makes the window visible again. -/
theorem close_request_hides_never_destroys (s : AppState) :
    applyCloseRequest s =
      ({ s with window := { s.window with visible := false } },
       [Effect.hideWindow "main", Effect.preventClose]) ∧
    (applyCloseRequest s).1.window.alive = s.window.alive ∧
    (applyCloseRequest s).1.nodeServer = s.nodeServer ∧
    killCount (applyCloseRequest s).2 = 0 ∧
    (onSystemTrayEvent (applyCloseRequest s).1
      (.menuItemClick "show")).1.window.visible = true := by
  refine ⟨rfl, rfl, rfl, rfl, rfl⟩

/-- C4: the take-and-kill operation is idempotent: on a live handle it sends
exactly one kill and empties the slot; on an empty slot it is a no-op; and
a second (or any later) invocation after a first one performs no further
kill attempt. -/
theorem terminate_idempotent :
    (∀ c : Child, terminate (some c) = (none, [Effect.killChild c.pid])) ∧
    terminate (none : Option Child) = (none, []) ∧
    (∀ p : Option Child, terminate (terminate p).1 = (none, [])) := by
  refine ⟨fun c => rfl, rfl, fun p => ?_⟩
  cases p <;> rfl

/-- C5: if the OS refuses the spawn, `main` panics with the fatal diagnostic
from `.expect` before anything else: no window is shown, no tray is created,
the event loop is never entered, and no application state reaches the event
loop. -/
theorem spawn_failure_aborts_startup (os : SpawnSpec → Except String Child)
    (e : String) (h : start_node_server os = .error e) :
    (mainStartup os).panicMsg =
      some ("Failed to start Node.js server: " ++ e) ∧
    (mainStartup os).state = none ∧
    Effect.showWindow "main" ∉ (mainStartup os).trace ∧
    Effect.createTray ∉ (mainStartup os).trace ∧
    Effect.enterEventLoop ∉ (mainStartup os).trace := by
  simp [mainStartup, h]

/-- C5 witness: a concrete spawn failure ("No such file or directory"). -/
theorem spawn_failure_aborts_startup_witness :
    start_node_server (fun _ => .error "No such file or directory") =
      .error "No such file or directory" ∧
    ((mainStartup (fun _ => .error "No such file or directory")).panicMsg =
      some ("Failed to start Node.js server: " ++
        "No such file or directory") ∧
    (mainStartup (fun _ => .error "No such file or directory")).state =
      none ∧
    Effect.showWindow "main" ∉
      (mainStartup (fun _ => .error "No such file or directory")).trace ∧
    Effect.createTray ∉
      (mainStartup (fun _ => .error "No such file or directory")).trace ∧
    Effect.enterEventLoop ∉
      (mainStartup (fun _ => .error "No such file or directory")).trace) :=
  ⟨rfl, spawn_failure_aborts_startup _ _ rfl⟩

/-- C6: over an arbitrary sequence of delivered events, the whole run emits
exactly one child-process spawn (the one in startup); no tray, window or run
handler spawns another, and neither does the asynchronous update task. -/
theorem single_spawn_per_run (child : Child) (es : List Event) :
    spawnCount ((mainStartup (fun _ => .ok child)).trace ++
      (runEvents (initialState child) es).2) = 1 ∧
    (∀ r, spawnCount (updateTask r).1 = 0) := by
  constructor
  · rw [spawnCount, List.countP_append]
    have h1 : spawnCount (mainStartup (fun _ => .ok child)).trace = 1 := rfl
    have h2 := runEvents_spawnCount_zero (initialState child) es
    rw [spawnCount] at h1 h2
    omega
  · intro r
    rcases r with ⟨b, v⟩ | e
    · cases b <;> rfl
    · rfl

/-- C7: after a successful spawn the startup sequence's very next step is the
single fixed 2-second blocking wait; the startup trace contains exactly one
sleep and no child-liveness poll, and tray creation, window display and the
event loop all come after the wait. -/
theorem startup_grace_period (child : Child) :
    (mainStartup (fun _ => .ok child)).trace.get? 0 =
      some (.trySpawn "node" "server.js" ".") ∧
    (mainStartup (fun _ => .ok child)).trace.get? 1 =
      some (.sleepSecs 2) ∧
    ((mainStartup (fun _ => .ok child)).trace.countP
      fun e => isSleepEffect e) = 1 ∧
    Effect.pollChildLiveness ∉ (mainStartup (fun _ => .ok child)).trace ∧
    (mainStartup (fun _ => .ok child)).trace =
      [.trySpawn "node" "server.js" ".", .sleepSecs 2, .createTray,
       .showWindow "main", .enterEventLoop] := by
  have htr : (mainStartup (fun _ => .ok child)).trace =
      [.trySpawn "node" "server.js" ".", .sleepSecs 2, .createTray,
       .showWindow "main", .enterEventLoop] := rfl
  refine ⟨rfl, rfl, rfl, ?_, htr⟩
  rw [htr]
  decide

/-- C8: a tray menu-item click whose identifier is none of the five
recognized ones leaves the state completely unchanged and emits no effect
at all (no window operation, no process operation, no log line). -/
theorem unrecognized_menu_id_ignored (s : AppState) (id : String)
    (h : id ∉ (["show", "hide", "auto_start", "update", "quit"] :
      List String)) :
    onSystemTrayEvent s (.menuItemClick id) = (s, []) := by
  simp only [List.mem_cons, List.not_mem_nil, or_false, not_or] at h
  obtain ⟨h1, h2, h3, h4, h5⟩ := h
  simp [onSystemTrayEvent, h1, h2, h3, h4, h5]

/-- C8 witness: the unrecognized identifier "restart" at a concrete state. -/
theorem unrecognized_menu_id_ignored_witness :
    ("restart" ∉ (["show", "hide", "auto_start", "update", "quit"] :
      List String)) ∧
    onSystemTrayEvent (initialState ⟨2⟩) (.menuItemClick "restart") =
      (initialState ⟨2⟩, []) :=
  ⟨by decide, unrecognized_menu_id_ignored (initialState ⟨2⟩) "restart"
    (by decide)⟩

/-- C9: `check_for_updates` maps a transport failure to a returned failure
carrying the reason string (it returns, it does not abort: the embedding is a
total function into a result), and maps every successful query — update
available or not — to success. -/
theorem check_for_updates_reports_failure_reason :
    (∀ e, check_for_updates (.failure e) =
      ([.printErrLine ("Failed to check for updates: " ++ e)],
       .error ("Update check failed: " ++ e))) ∧
    (∀ b v, (check_for_updates (.response b v)).2 = .ok ()) := by
  refine ⟨fun e => rfl, fun b v => ?_⟩
  cases b <;> rfl

/-- C10: the "update" tray arm only spawns an asynchronous task and changes
no state; the task's value is unit (the `check_for_updates` result is
discarded by `.ok();`), and on a transport failure the task's entire
observable output is the single stderr log line. -/
theorem update_click_discards_result (s : AppState) :
    onSystemTrayEvent s (.menuItemClick "update") =
      (s, [Effect.spawnAsyncTask]) ∧
    (∀ r, (updateTask r).2 = ()) ∧
    (∀ e, updateTask (.failure e) =
      ([Effect.printErrLine ("Failed to check for updates: " ++ e)], ())) :=
  ⟨rfl, fun _ => rfl, fun _ => rfl⟩

end TikTokHelper
